import Mathlib

set_option maxHeartbeats 1000000

/-!
Formal model of the Optical Designer repository.

The editor definitions below are shallow embeddings of the functions in
frontend/src/App.jsx (component palette, default properties, port geometry,
port hit-testing, connection creation, deletion, JSON export and import).
JavaScript numbers are modelled as real numbers, JavaScript objects keyed by
strings as Lean structures or association lists, and the pieces of the mouse
handlers that manipulate editor state are modelled as pure functions of that
state.  The ray-tracing backend is not part of the repository checkout; the
definitions in the second half are modelled from the design document and are
marked as such.
-/

/-- Role of a port, the `type` field of a port descriptor in App.jsx. -/
inductive PortType where
  | input
  | output
deriving DecidableEq, Repr

/-- A port descriptor: `{ id, x, y, type }` entries of `COMPONENT_TYPES[...].ports`. -/
structure Port where
  id : String
  x : ℝ
  y : ℝ
  type : PortType

/-- One entry of the `COMPONENT_TYPES` palette object in App.jsx. -/
structure ComponentTypeInfo where
  name : String
  color : String
  icon : String
  ports : List Port
  width : ℝ
  height : ℝ

/-- The `COMPONENT_TYPES` object of App.jsx: a lookup from the component type
string to its palette entry (JavaScript property access on an object literal). -/
def COMPONENT_TYPES (t : String) : Option ComponentTypeInfo :=
  if t = "laser" then
    some { name := "Laser", color := "#fbbf24", icon := "◉"
           ports := [⟨"out", 30, 0, PortType.output⟩]
           width := 40, height := 40 }
  else if t = "mirror" then
    some { name := "Mirror", color := "#60a5fa", icon := "|"
           ports := [⟨"in", -20, 0, PortType.input⟩, ⟨"out", 0, -20, PortType.output⟩]
           width := 40, height := 40 }
  else if t = "beamsplitter" then
    some { name := "Beam Splitter", color := "#a78bfa", icon := "⊕"
           ports := [⟨"in", -25, 0, PortType.input⟩, ⟨"out1", 25, 0, PortType.output⟩,
                     ⟨"out2", 0, 25, PortType.output⟩, ⟨"out3", 0, -25, PortType.output⟩]
           width := 50, height := 50 }
  else if t = "lens" then
    some { name := "Lens", color := "#34d399", icon := "()"
           ports := [⟨"in", -30, 0, PortType.input⟩, ⟨"out", 30, 0, PortType.output⟩]
           width := 40, height := 50 }
  else if t = "photodetector" then
    some { name := "Photo-detector", color := "#f87171", icon := "□"
           ports := [⟨"in", -20, 0, PortType.input⟩]
           width := 40, height := 40 }
  else none

/-- The port list of a component type: `COMPONENT_TYPES[t].ports` (an unknown
type yields the empty list; in the JavaScript the access would fault, and no
code path reaches it with an unknown type). -/
def kindPorts (t : String) : List Port :=
  match COMPONENT_TYPES t with
  | some info => info.ports
  | none => []

/-- `getDefaultProperties` of App.jsx: the switch over the component type. -/
def getDefaultProperties (t : String) : List (String × ℝ) :=
  if t = "laser" then [("wavelength", 550), ("power", 1)]
  else if t = "mirror" then [("reflectivity", 0.95), ("roc", 1000)]
  else if t = "beamsplitter" then [("reflectivity", 0.5), ("transmissivity", 0.5)]
  else if t = "lens" then [("focalLength", 100)]
  else if t = "photodetector" then [("sensitivity", 1)]
  else []

/-- An editor component: the objects held in the `components` state of App.jsx. -/
structure Component where
  id : ℤ
  type : String
  x : ℝ
  y : ℝ
  angle : ℝ
  properties : List (String × ℝ)

/-- An editor connection: the objects held in the `connections` state of App.jsx. -/
structure Connection where
  id : ℤ
  fromComp : ℤ
  fromPort : String
  toComp : ℤ
  toPort : String
deriving DecidableEq, Repr

/-- The component built by `addComponent` in App.jsx (`Date.now()` is passed in
as `now`). -/
def newComponent (type : String) (now : ℤ) : Component :=
  { id := now, type := type, x := 120, y := 120, angle := 0
    properties := getDefaultProperties type }

/-- `addComponent` of App.jsx: appends the freshly built component to the list. -/
def addComponent (comps : List Component) (type : String) (now : ℤ) : List Component :=
  comps ++ [newComponent type now]

/-- Effect of `deleteComponent` of App.jsx on the component list. -/
def deleteComponentComps (id : ℤ) (comps : List Component) : List Component :=
  comps.filter (fun c => !(c.id == id))

/-- Effect of `deleteComponent` of App.jsx on the connection list:
`connections.filter(c => c.fromComp !== id && c.toComp !== id)`. -/
def deleteComponentConns (id : ℤ) (conns : List Connection) : List Connection :=
  conns.filter (fun c => !(c.fromComp == id) && !(c.toComp == id))

/-- The record returned by `getPortWorldPosition` in App.jsx. -/
structure WorldPos where
  x : ℝ
  y : ℝ
  portId : String

/-- `getPortWorldPosition` of App.jsx: rotate the local port offset by the
component angle (degrees converted to radians) and translate by the component
position. -/
noncomputable def getPortWorldPosition (component : Component) (port : Port) : WorldPos :=
  let angle := component.angle * Real.pi / 180
  let c := Real.cos angle
  let s := Real.sin angle
  { x := component.x + port.x * c - port.y * s
    y := component.y + port.x * s + port.y * c
    portId := port.id }

/-- Application of the standard 2-D rotation matrix, written from the design
document sentence `world = position + R(rotationDeg) · localOffset` in order to
compare it with the code. -/
noncomputable def rot2d (θ : ℝ) (v : ℝ × ℝ) : ℝ × ℝ :=
  (v.1 * Real.cos θ - v.2 * Real.sin θ, v.1 * Real.sin θ + v.2 * Real.cos θ)

/-- The hit record produced by `findPortAtPosition` in App.jsx. -/
structure PortHit where
  component : Component
  port : Port
  worldPos : WorldPos

/-- `PORT_RADIUS` of App.jsx. -/
def PORT_RADIUS : ℝ := 8

/-- Inner loop of `findPortAtPosition`: scan one component's ports in order and
return the first whose world position is within `PORT_RADIUS * 2` of the click. -/
noncomputable def findPortInPorts (c : Component) (ports : List Port) (x y : ℝ) :
    Option PortHit :=
  match ports with
  | [] => none
  | p :: rest =>
    let wp := getPortWorldPosition c p
    if Real.sqrt ((x - wp.x) ^ 2 + (y - wp.y) ^ 2) < PORT_RADIUS * 2 then
      some ⟨c, p, wp⟩
    else findPortInPorts c rest x y

/-- `findPortAtPosition` of App.jsx: scan components in order, and within each
component its type's ports in order. -/
noncomputable def findPortAtPosition (comps : List Component) (x y : ℝ) :
    Option PortHit :=
  match comps with
  | [] => none
  | c :: rest =>
    match findPortInPorts c (kindPorts c.type) x y with
    | some h => some h
    | none => findPortAtPosition rest x y

/-- The `connecting` state record set by `handleMouseDown` in App.jsx. -/
structure Connecting where
  fromComp : ℤ
  fromPort : String
  startX : ℝ
  startY : ℝ
  currentX : ℝ
  currentY : ℝ

/-- The port branch of `handleMouseDown` of App.jsx: when the click hits a port,
a connection is started only when that port is an output port; otherwise no
`connecting` state is created. -/
noncomputable def mouseDownConnect (comps : List Component) (x y : ℝ) :
    Option Connecting :=
  match findPortAtPosition comps x y with
  | some info =>
    if info.port.type = PortType.output then
      some ⟨info.component.id, info.port.id, info.worldPos.x, info.worldPos.y, x, y⟩
    else none
  | none => none

/-- The connection branch of `handleMouseUp` of App.jsx: complete the pending
connection only when the release hits an input port, skipping duplicates
(`Date.now()` is passed in as `newId`). -/
noncomputable def handleMouseUpConnect (comps : List Component) (connecting : Connecting)
    (x y : ℝ) (newId : ℤ) (conns : List Connection) : List Connection :=
  match findPortAtPosition comps x y with
  | some info =>
    if info.port.type = PortType.input then
      let newConnection : Connection :=
        ⟨newId, connecting.fromComp, connecting.fromPort, info.component.id, info.port.id⟩
      if conns.any (fun c =>
          c.fromComp == newConnection.fromComp && c.fromPort == newConnection.fromPort
          && c.toComp == newConnection.toComp && c.toPort == newConnection.toPort) then
        conns
      else conns ++ [newConnection]
    else conns
  | none => conns

/-- A connection satisfies the role invariant when its from side names an output
port of a present component's type and its to side names an input port of a
present component's type. -/
def connectionRolesOk (comps : List Component) (cn : Connection) : Bool :=
  (comps.any fun fc => fc.id == cn.fromComp
     && (kindPorts fc.type).any fun p => p.id == cn.fromPort && p.type == PortType.output)
  && (comps.any fun tc => tc.id == cn.toComp
     && (kindPorts tc.type).any fun p => p.id == cn.toPort && p.type == PortType.input)

/-- A connection list references only components present in the component list. -/
def connsReference (comps : List Component) (conns : List Connection) : Bool :=
  conns.all fun cn =>
    (comps.any fun c => c.id == cn.fromComp) && (comps.any fun c => c.id == cn.toComp)

/-- A component record as written by `exportJSON` in App.jsx:
`{ id, type, position: {x, y}, rotation, properties }`. -/
structure ExpComponent where
  id : ℤ
  type : String
  position : ℝ × ℝ
  rotation : ℝ
  properties : List (String × ℝ)

/-- A connection record as written by `exportJSON` in App.jsx:
`{ id, from: {componentId, port}, to: {componentId, port} }`. -/
structure ExpConnection where
  id : ℤ
  fromRef : ℤ × String
  toRef : ℤ × String

/-- The editor's `sweepConfig` state. -/
structure SweepConfig where
  startFreq : ℝ
  stopFreq : ℝ
  points : ℕ

/-- The `simulation` block of the exported document. -/
structure SimBlock where
  sweepConfig : SweepConfig
  raysShown : Bool

/-- The setup document written by `exportJSON` and read by `importJSON`
(the write-only `results` field and the ray path list, which `importJSON`
never reads, are not modelled beyond the `raysShown` flag). -/
structure SetupDoc where
  version : String
  timestamp : String
  components : List ExpComponent
  connections : Option (List ExpConnection)
  simulation : Option SimBlock

/-- The component mapping inside `exportJSON` of App.jsx. -/
def exportComponent (c : Component) : ExpComponent :=
  ⟨c.id, c.type, (c.x, c.y), c.angle, c.properties⟩

/-- The connection mapping inside `exportJSON` of App.jsx. -/
def exportConnection (c : Connection) : ExpConnection :=
  ⟨c.id, (c.fromComp, c.fromPort), (c.toComp, c.toPort)⟩

/-- `exportJSON` of App.jsx as a document builder: the file it downloads is the
JSON serialization of this record. -/
def exportJSON (comps : List Component) (conns : List Connection)
    (cfg : SweepConfig) (showRays : Bool) (timestamp : String) : SetupDoc :=
  { version := "1.0"
    timestamp := timestamp
    components := comps.map exportComponent
    connections := some (conns.map exportConnection)
    simulation := some ⟨cfg, showRays⟩ }

/-- The component mapping inside `importJSON` of App.jsx. -/
def importComponent (e : ExpComponent) : Component :=
  ⟨e.id, e.type, e.position.1, e.position.2, e.rotation, e.properties⟩

/-- The connection mapping inside `importJSON` of App.jsx. -/
def importConnection (e : ExpConnection) : Connection :=
  ⟨e.id, e.fromRef.1, e.fromRef.2, e.toRef.1, e.toRef.2⟩

/-- Effect of `importJSON` of App.jsx on the component list. -/
def importJSONComponents (doc : SetupDoc) : List Component :=
  doc.components.map importComponent

/-- Effect of `importJSON` of App.jsx on the connection list: the list is
replaced only when the document carries a `connections` field. -/
def importJSONConnections (doc : SetupDoc) (old : List Connection) : List Connection :=
  match doc.connections with
  | some l => l.map importConnection
  | none => old

/-!
## Backend ray-tracing engine, modelled from the design document

The repository checkout contains only the frontend; the FastAPI backend
(`backend/main.py`, holding the validator, geometry resolver, interaction
model, ray tracer, sweep orchestrator and statistics aggregator) is absent.
The definitions below are therefore modelled from the design document and are
each marked so.
-/

/-- Modelled from the spec: the component kind enumeration of the engine data
model (the backend `main.py` is missing from the checkout). -/
inductive SKind where
  | source
  | mirror
  | beamsplitter
  | lens
  | detector
deriving DecidableEq, Repr

/-- Modelled from the spec: an engine component with its kind-specific numeric
properties (missing backend data model). -/
structure SComponent where
  id : ℕ
  kind : SKind
  wavelengthNm : ℝ := 0
  power : ℝ := 0
  reflectivity : ℝ := 0
  transmissivity : ℝ := 0
  focalLength : ℝ := 0
  sensitivity : ℝ := 0
  radiusOfCurvature : ℝ := 0

/-- Modelled from the spec: a directed engine connection (missing backend). -/
structure SConnection where
  fromComp : ℕ
  fromPort : String
  toComp : ℕ
  toPort : String

/-- Modelled from the spec: the engine graph (missing backend). -/
structure SGraph where
  components : List SComponent
  connections : List SConnection

/-- Modelled from the spec: the termination reasons of a traced ray. -/
inductive TermReason where
  | maxBounces
  | attenuated
  | absorbed
  | openEnd
  | degenerate
deriving DecidableEq, Repr

/-- Modelled from the spec: a traced ray record (missing backend). -/
structure SRay where
  originComponentId : ℕ
  wavelengthNm : ℝ
  intensity : ℝ
  bounceCount : ℕ
  terminated : Bool
  reason : Option TermReason

/-- Modelled from the spec: the fixed maximum bounce count, default 50. -/
def maxBounces : ℕ := 50

/-- Modelled from the spec: the fixed intensity epsilon, default 1e-4. -/
noncomputable def intensityEps : ℝ := 1e-4

/-- Modelled from the spec: the small fixed transmission loss of a lens (the
document gives no number; two percent is used as the documented default). -/
noncomputable def lensTransmission : ℝ := 0.98

/-- Modelled from the spec: when `reflectivity + transmissivity` exceeds 1 the
engine clamps the sum to 1 and renormalizes both factors proportionally. -/
noncomputable def clampSplit (r t : ℝ) : ℝ × ℝ :=
  if 1 < r + t then (r / (r + t), t / (r + t)) else (r, t)

/-- Modelled from the spec: the interaction model, reduced to the list of
`(exitPortId, intensityFactor)` pairs it produces.  The Fresnel-style loss
term of a mirror depends on the angle of incidence; its exact formula is not
given by the document, so its value is passed in as `fres`.  A source is not
an interaction target and a detector is terminal, so both produce no
outgoing ray. -/
noncomputable def interactFactors (c : SComponent) (fres : ℝ) : List (String × ℝ) :=
  match c.kind with
  | SKind.source => []
  | SKind.mirror => [("out", c.reflectivity * fres)]
  | SKind.beamsplitter =>
    [("out1", (clampSplit c.reflectivity c.transmissivity).1),
     ("out2", (clampSplit c.reflectivity c.transmissivity).2)]
  | SKind.lens => [("out", lensTransmission)]
  | SKind.detector => []

/-- Modelled from the spec: a work-queue item `(ray, componentId, portId)`. -/
structure QItem where
  ray : SRay
  compId : ℕ
  portId : String

/-- Modelled from the spec: mark a ray terminated with the given reason. -/
def terminateRay (r : SRay) (why : TermReason) : SRay :=
  { r with terminated := true, reason := some why }

/-- Modelled from the spec: deliver a ray over one connection to its target
component.  A detector absorbs the ray; a missing target is a runtime
degeneracy that terminates only this ray; otherwise each interaction output
becomes a continuation ray with multiplied intensity and incremented bounce
count, terminated as `attenuated` when it falls below the epsilon and
enqueued on the exit port otherwise. -/
noncomputable def stepConn (g : SGraph) (fres : ℝ) (r : SRay) (cn : SConnection) :
    List SRay × List QItem :=
  match g.components.find? (fun c => c.id == cn.toComp) with
  | none => ([terminateRay r TermReason.degenerate], [])
  | some dest =>
    if dest.kind = SKind.detector then
      ([terminateRay { r with bounceCount := r.bounceCount + 1 } TermReason.absorbed], [])
    else
      let children := (interactFactors dest fres).map (fun o =>
        ({ r with intensity := r.intensity * o.2, bounceCount := r.bounceCount + 1 }, o.1))
      ((children.filter (fun c => decide (c.1.intensity < intensityEps))).map
         (fun c => terminateRay c.1 TermReason.attenuated),
       (children.filter (fun c => !decide (c.1.intensity < intensityEps))).map
         (fun c => ⟨c.1, cn.toComp, c.2⟩))

/-- Modelled from the spec: process one queue item.  Termination policy, first
applicable wins: bounce cap, then open end when no connection leaves the
current port, otherwise delivery along every outgoing connection. -/
noncomputable def stepItem (g : SGraph) (fres : ℝ) (it : QItem) :
    List SRay × List QItem :=
  if maxBounces ≤ it.ray.bounceCount then
    ([terminateRay it.ray TermReason.maxBounces], [])
  else
    let outs := g.connections.filter (fun cn =>
      cn.fromComp == it.compId && cn.fromPort == it.portId)
    if outs.isEmpty then ([terminateRay it.ray TermReason.openEnd], [])
    else
      let rs := outs.map (stepConn g fres it.ray)
      ((rs.map Prod.fst).flatten, (rs.map Prod.snd).flatten)

/-- Modelled from the spec: breadth-first processing of the work queue, one
bounce generation per step; the counter starts at `maxBounces + 1`, enough
for every generation the bounce cap admits, and any item still queued when it
runs out is terminated by the cap. -/
noncomputable def traceRun (g : SGraph) (fres : ℝ) : ℕ → List QItem → List SRay
  | 0, items => items.map (fun it => terminateRay it.ray TermReason.maxBounces)
  | n + 1, items =>
    let rs := items.map (stepItem g fres)
    (rs.map Prod.fst).flatten ++ traceRun g fres n ((rs.map Prod.snd).flatten)

/-- Modelled from the spec: seed one primary ray per source component, departing
its output port with intensity `power` and bounce count zero. -/
def traceSeeds (g : SGraph) : List QItem :=
  g.components.filterMap (fun c =>
    if c.kind = SKind.source then
      some ⟨⟨c.id, c.wavelengthNm, c.power, 0, false, none⟩, c.id, "out"⟩
    else none)

/-- Modelled from the spec: `trace(graph)` — seed every source, then run the
work queue to completion under the bounce cap. -/
noncomputable def trace (g : SGraph) (fres : ℝ) : List SRay :=
  traceRun g fres (maxBounces + 1) (traceSeeds g)

/-- Modelled from the spec: the sweep orchestrator's sampled wavelengths —
`points` values linearly spaced over the closed interval, a single point
sampling the midpoint (missing backend). -/
noncomputable def sampleWavelengths (startNm stopNm : ℝ) (points : ℕ) : List ℝ :=
  if points = 1 then [(startNm + stopNm) / 2]
  else (List.range points).map
    (fun i : ℕ => startNm + (stopNm - startNm) * (i : ℝ) / ((points : ℝ) - 1))

/-- Modelled from the spec: the rays the aggregator averages over — exactly
those terminated with reason `absorbed` (missing backend). -/
def absorbedRays (rays : List SRay) : List SRay :=
  rays.filter (fun r => r.reason == some TermReason.absorbed)

/-- Modelled from the spec: `averageIntensity` — the mean of final intensities
over absorbed rays, guarded to 0 when there is none (missing backend). -/
noncomputable def averageIntensity (rays : List SRay) : ℝ :=
  let a := absorbedRays rays
  if a.length = 0 then 0
  else (a.map SRay.intensity).sum / a.length

/-- Modelled from the spec: the aggregator appends a warning instead of
faulting when no ray was absorbed (missing backend). -/
def aggregateWarnings (rays : List SRay) (w : List String) : List String :=
  if (absorbedRays rays).length = 0 then w ++ ["no absorbed rays"] else w

/-! ### Concrete editor states used to evaluate the theorems -/

/-- A laser at the origin with rotation zero. -/
def laser1 : Component := ⟨1, "laser", 0, 0, 0, []⟩

/-- A photodetector at (100, 0) with rotation zero. -/
def det2 : Component := ⟨2, "photodetector", 100, 0, 0, []⟩

/-- A two-component canvas: a laser and a photodetector. -/
def comps0 : List Component := [laser1, det2]

/-- The pending connection started by pressing the mouse on the laser's output
port, whose world position is (30, 0). -/
def cn0 : Connecting := ⟨1, "out", 30, 0, 30, 0⟩

/-- An imported setup document whose single connection departs from the port
id `in`, which is not an output port of a laser (a laser has no such port). -/
def badDoc : SetupDoc :=
  { version := "1.0", timestamp := "t"
    components := [⟨1, "laser", (0, 0), 0, []⟩]
    connections := some [⟨5, (1, "in"), (1, "out")⟩]
    simulation := none }

/-- The connection the editor holds after importing `badDoc`. -/
def badConn : Connection := ⟨5, 1, "in", 1, "out"⟩

/-- A laser and a photodetector, used to evaluate deletion. -/
def comps1 : List Component := [⟨1, "laser", 0, 0, 0, []⟩, ⟨2, "photodetector", 240, 0, 0, []⟩]

/-- One connection from the laser to the photodetector. -/
def conns1 : List Connection := [⟨7, 1, "out", 2, "in"⟩]

/-- A beam splitter whose reflectivity and transmissivity sum beyond 1,
exercising the clamping branch of the interaction model. -/
def bsComp : SComponent :=
  { id := 3, kind := SKind.beamsplitter, reflectivity := 0.6, transmissivity := 0.7 }

/-! ## Theorems -/

/-- Claim C1: for every component with rotation angle `angle` (in degrees) and
every port with local offset `(x, y)`, `getPortWorldPosition` returns exactly
the point `(component.x + x·cos θ − y·sin θ, component.y + x·sin θ + y·cos θ)`
for `θ = angle·π/180`, i.e. `world = position + R(rotationDeg) · localOffset`
with `R` the standard 2-D rotation matrix about the component's own position. -/
theorem getPortWorldPosition_spec (c : Component) (p : Port) :
    (getPortWorldPosition c p).x
      = c.x + p.x * Real.cos (c.angle * Real.pi / 180)
        - p.y * Real.sin (c.angle * Real.pi / 180)
    ∧ (getPortWorldPosition c p).y
      = c.y + p.x * Real.sin (c.angle * Real.pi / 180)
        + p.y * Real.cos (c.angle * Real.pi / 180)
    ∧ ((getPortWorldPosition c p).x, (getPortWorldPosition c p).y)
      = (c.x + (rot2d (c.angle * Real.pi / 180) (p.x, p.y)).1,
         c.y + (rot2d (c.angle * Real.pi / 180) (p.x, p.y)).2) := by
  refine ⟨rfl, rfl, ?_⟩
  simp only [getPortWorldPosition, rot2d, Prod.mk.injEq]
  constructor <;> ring

/-- Claim C2 is false on the code: the program recognizes the kind `laser`,
which is not among the five names the claim lists, and the claimed name
`source` is not a recognized kind. -/
theorem componentKinds_claim_false :
    (COMPONENT_TYPES "laser").isSome = true
    ∧ "laser" ∉ ["source", "mirror", "beamsplitter", "lens", "detector"]
    ∧ (COMPONENT_TYPES "source").isSome = false := by
  refine ⟨by decide, by decide, by decide⟩

/-- Claim C2 amended: every component kind the program recognizes is one of
exactly the five names laser, mirror, beamsplitter, lens, photodetector, and
these are exactly the keys under which the palette entry (with its fixed port
schema) and the non-empty default properties are defined. -/
theorem componentKinds_exact (s : String) :
    ((COMPONENT_TYPES s).isSome = true
        ↔ s ∈ ["laser", "mirror", "beamsplitter", "lens", "photodetector"])
    ∧ (getDefaultProperties s ≠ []
        ↔ s ∈ ["laser", "mirror", "beamsplitter", "lens", "photodetector"]) := by
  constructor
  · unfold COMPONENT_TYPES
    split_ifs with h1 h2 h3 h4 h5 <;> simp_all
  · unfold getDefaultProperties
    split_ifs with h1 h2 h3 h4 h5 <;> simp_all

/-- Claim C3 is false on the code: there is no kind `source` (its default
property list is empty), the laser kind names its wavelength property
`wavelength` rather than `wavelengthNm`, and the mirror kind names its
curvature property `roc` rather than `radiusOfCurvature`. -/
theorem defaultProperties_claim_false :
    (getDefaultProperties "source").map Prod.fst = []
    ∧ "wavelengthNm" ∉ (getDefaultProperties "laser").map Prod.fst
    ∧ "radiusOfCurvature" ∉ (getDefaultProperties "mirror").map Prod.fst := by
  refine ⟨by decide, by decide, by decide⟩

/-- Claim C3 amended: a newly created component of each kind carries exactly
the default properties of that kind, under exactly these names:
laser{wavelength, power}; mirror{reflectivity, roc};
beamsplitter{reflectivity, transmissivity}; lens{focalLength};
photodetector{sensitivity}. -/
theorem defaultProperties_exact (comps : List Component) (t : String) (now : ℤ) :
    addComponent comps t now = comps ++ [newComponent t now]
    ∧ (newComponent t now).properties = getDefaultProperties t
    ∧ (getDefaultProperties "laser").map Prod.fst = ["wavelength", "power"]
    ∧ (getDefaultProperties "mirror").map Prod.fst = ["reflectivity", "roc"]
    ∧ (getDefaultProperties "beamsplitter").map Prod.fst
        = ["reflectivity", "transmissivity"]
    ∧ (getDefaultProperties "lens").map Prod.fst = ["focalLength"]
    ∧ (getDefaultProperties "photodetector").map Prod.fst = ["sensitivity"] := by
  refine ⟨rfl, rfl, by decide, by decide, by decide, by decide, by decide⟩

/-- Claim C9: importing the document produced by `exportJSON` restores the
component list and the connection list unchanged — every component's id, type,
position, rotation and properties and every connection's id and endpoint
references are recovered exactly, whatever connection list was in the editor
before the import. -/
theorem exportImport_roundTrip (comps : List Component) (conns : List Connection)
    (cfg : SweepConfig) (showRays : Bool) (ts : String) (old : List Connection) :
    importJSONComponents (exportJSON comps conns cfg showRays ts) = comps
    ∧ importJSONConnections (exportJSON comps conns cfg showRays ts) old = conns := by
  constructor
  · show (comps.map exportComponent).map importComponent = comps
    rw [List.map_map]
    have h : importComponent ∘ exportComponent = id := funext fun c => rfl
    rw [h, List.map_id]
  · show (conns.map exportConnection).map importConnection = conns
    rw [List.map_map]
    have h : importConnection ∘ exportConnection = id := funext fun c => rfl
    rw [h, List.map_id]

/-- Claim C10: after `deleteComponent id`, no connection referencing `id` on
either side remains, and a connection list that referenced only present
components still references only present components. -/
theorem deleteComponent_no_dangling (id : ℤ) (comps : List Component)
    (conns : List Connection)
    (h : connsReference comps conns = true) :
    ((deleteComponentConns id conns).all
        (fun c => !(c.fromComp == id) && !(c.toComp == id)) = true)
    ∧ connsReference (deleteComponentComps id comps) (deleteComponentConns id conns)
        = true := by
  constructor
  · rw [List.all_eq_true]
    intro c hc
    exact (List.mem_filter.mp hc).2
  · simp only [connsReference, List.all_eq_true] at h ⊢
    intro cn hcn
    obtain ⟨hmem, hpred⟩ := List.mem_filter.mp hcn
    have h2 := h cn hmem
    rw [Bool.and_eq_true] at h2 hpred ⊢
    obtain ⟨hf, hto⟩ := h2
    obtain ⟨hpf, hpt⟩ := hpred
    rw [Bool.not_eq_true', beq_eq_false_iff_ne] at hpf hpt
    constructor
    · rw [List.any_eq_true] at hf ⊢
      obtain ⟨c, hcmem, hcid⟩ := hf
      rw [beq_iff_eq] at hcid
      refine ⟨c, List.mem_filter.mpr ⟨hcmem, ?_⟩, by rw [beq_iff_eq]; exact hcid⟩
      rw [Bool.not_eq_true', beq_eq_false_iff_ne]
      rw [hcid]
      exact hpf
    · rw [List.any_eq_true] at hto ⊢
      obtain ⟨c, hcmem, hcid⟩ := hto
      rw [beq_iff_eq] at hcid
      refine ⟨c, List.mem_filter.mpr ⟨hcmem, ?_⟩, by rw [beq_iff_eq]; exact hcid⟩
      rw [Bool.not_eq_true', beq_eq_false_iff_ne]
      rw [hcid]
      exact hpt

/-- Witness for claim C10 at a concrete editor state: a laser connected to a
photodetector, deleting the photodetector. -/
theorem deleteComponent_no_dangling_witness :
    connsReference comps1 conns1 = true
    ∧ (((deleteComponentConns 2 conns1).all
          (fun c => !(c.fromComp == 2) && !(c.toComp == 2)) = true)
       ∧ connsReference (deleteComponentComps 2 comps1) (deleteComponentConns 2 conns1)
           = true) :=
  ⟨by decide, deleteComponent_no_dangling 2 comps1 conns1 (by decide)⟩

/-- Claim C8: `averageIntensity` is the mean of final intensities over exactly
the rays terminated with reason `absorbed`; with no absorbed ray it is 0 and a
warning is appended, the division being guarded rather than faulting.
Modelled from the spec (the backend aggregator is missing from the checkout). -/
theorem aggregate_averageIntensity_spec (rays : List SRay) (w : List String) :
    ((absorbedRays rays).length = 0 →
       averageIntensity rays = 0 ∧ "no absorbed rays" ∈ aggregateWarnings rays w)
    ∧ ((absorbedRays rays).length ≠ 0 →
       averageIntensity rays
         = ((absorbedRays rays).map SRay.intensity).sum / (absorbedRays rays).length) := by
  constructor
  · intro h
    constructor
    · simp [averageIntensity, h]
    · simp [aggregateWarnings, h]
  · intro h
    simp [averageIntensity, h]

/-- Witness for claim C8: the empty ray list has no absorbed ray, so the
average is 0 and the warning is present. -/
theorem aggregate_averageIntensity_witness :
    (absorbedRays ([] : List SRay)).length = 0
    ∧ (averageIntensity [] = 0 ∧ "no absorbed rays" ∈ aggregateWarnings [] []) :=
  ⟨rfl, (aggregate_averageIntensity_spec [] []).1 rfl⟩

/-- Claim C7: the sweep samples the single midpoint when `points = 1`, and for
`points = N ≥ 2` exactly `N` wavelengths linearly spaced over the closed
interval, the first being `startNm` and the last `stopNm`.  Modelled from the
spec (the backend sweep orchestrator is missing from the checkout). -/
theorem sweep_sampling_spec :
    (∀ s t : ℝ, sampleWavelengths s t 1 = [(s + t) / 2])
    ∧ ∀ (s t : ℝ) (N : ℕ), 2 ≤ N →
        (sampleWavelengths s t N).length = N
        ∧ (sampleWavelengths s t N)[0]? = some s
        ∧ (sampleWavelengths s t N)[N - 1]? = some t
        ∧ ∀ i, i < N →
            (sampleWavelengths s t N)[i]? = some (s + (t - s) * (i : ℝ) / ((N : ℝ) - 1)) := by
  constructor
  · intro s t
    simp [sampleWavelengths]
  · intro s t N hN
    have hN1 : N ≠ 1 := by omega
    have key : ∀ i, i < N →
        (sampleWavelengths s t N)[i]? = some (s + (t - s) * (i : ℝ) / ((N : ℝ) - 1)) := by
      intro i hi
      simp [sampleWavelengths, if_neg hN1, List.getElem?_map, List.getElem?_range, hi]
    refine ⟨?_, ?_, ?_, key⟩
    · simp [sampleWavelengths, if_neg hN1]
    · rw [key 0 (by omega)]
      norm_num
    · rw [key (N - 1) (by omega)]
      have h2 : (2 : ℝ) ≤ (N : ℝ) := by exact_mod_cast hN
      have hc : (N : ℝ) - 1 ≠ 0 := by linarith
      have hcast : ((N - 1 : ℕ) : ℝ) = (N : ℝ) - 1 := by
        rw [Nat.cast_sub (by omega)]
        norm_num
      rw [hcast, mul_div_assoc, div_self hc, mul_one]
      ring_nf

/-- Witness for claim C7: a three-point sweep over [400, 700] has its middle
sample at 400 + (700 − 400)·1/2. -/
theorem sweep_sampling_witness :
    2 ≤ 3
    ∧ (sampleWavelengths (400 : ℝ) 700 3)[1]?
        = some (400 + ((700 : ℝ) - 400) * ((1 : ℕ) : ℝ) / (((3 : ℕ) : ℝ) - 1)) :=
  ⟨by norm_num, (sweep_sampling_spec.2 400 700 3 (by norm_num)).2.2.2 1 (by norm_num)⟩

/-- A hit returned by the inner port scan is one of the scanned ports of the
scanned component. -/
theorem findPortInPorts_mem {c : Component} {ports : List Port} {x y : ℝ} {h : PortHit}
    (hf : findPortInPorts c ports x y = some h) :
    h.component = c ∧ h.port ∈ ports := by
  induction ports with
  | nil => simp [findPortInPorts] at hf
  | cons p rest ih =>
    rw [findPortInPorts] at hf
    split at hf
    · cases hf
      exact ⟨rfl, List.mem_cons_self p rest⟩
    · obtain ⟨h1, h2⟩ := ih hf
      exact ⟨h1, List.mem_cons_of_mem p h2⟩

/-- A hit returned by `findPortAtPosition` pairs a component of the canvas with
a port of that component's type schema. -/
theorem findPortAtPosition_mem {comps : List Component} {x y : ℝ} {h : PortHit}
    (hf : findPortAtPosition comps x y = some h) :
    h.component ∈ comps ∧ h.port ∈ kindPorts h.component.type := by
  induction comps with
  | nil => simp [findPortAtPosition] at hf
  | cons c rest ih =>
    rw [findPortAtPosition] at hf
    cases hh : findPortInPorts c (kindPorts c.type) x y with
    | some h0 =>
      rw [hh] at hf
      cases hf
      obtain ⟨e1, e2⟩ := findPortInPorts_mem hh
      rw [e1]
      exact ⟨List.mem_cons_self c rest, e2⟩
    | none =>
      rw [hh] at hf
      obtain ⟨m1, m2⟩ := ih hf
      exact ⟨List.mem_cons_of_mem c m1, m2⟩

/-- `handleMouseDown` starts a pending connection only from a found port of
role output, and records that port's component id and port id. -/
theorem mouseDownConnect_spec {comps : List Component} {x y : ℝ} {cn : Connecting}
    (h : mouseDownConnect comps x y = some cn) :
    ∃ hit : PortHit, findPortAtPosition comps x y = some hit
      ∧ hit.port.type = PortType.output
      ∧ cn.fromComp = hit.component.id ∧ cn.fromPort = hit.port.id := by
  unfold mouseDownConnect at h
  cases hfp : findPortAtPosition comps x y with
  | none =>
    rw [hfp] at h
    exact absurd h (by simp)
  | some info =>
    rw [hfp] at h
    dsimp only at h
    by_cases ht : info.port.type = PortType.output
    · rw [if_pos ht] at h
      have hcn := Option.some.inj h
      exact ⟨info, rfl, ht, by rw [← hcn], by rw [← hcn]⟩
    · rw [if_neg ht] at h
      exact absurd h (by simp)

/-- Claim C4 is false on the code as stated over every operation that installs
connections: `importJSON` copies the connection list out of the file without
any role validation, so after importing `badDoc` the list holds a connection
whose from-side names the port `in`, which is not an output port of the
laser it departs from. -/
theorem connectionRoles_claim_false :
    badConn ∈ importJSONConnections badDoc []
    ∧ connectionRolesOk (importJSONComponents badDoc) badConn = false := by
  refine ⟨by decide, by decide⟩

/-- Claim C4 amended: connections created through the canvas mouse interaction
do satisfy the role invariant — `handleMouseDown` only starts from a port of
role output on a canvas component, `handleMouseUp` only completes on a port of
role input, and the installed connection records those ports — so a connection
list in which every entry satisfies the invariant still does after the mouse
flow; `importJSON`, however, installs connections without any role check. -/
theorem mouse_connections_keep_roles (comps : List Component) (conns : List Connection)
    (x1 y1 x2 y2 : ℝ) (cn : Connecting) (newId : ℤ)
    (h0 : conns.all (connectionRolesOk comps) = true)
    (h1 : mouseDownConnect comps x1 y1 = some cn) :
    (handleMouseUpConnect comps cn x2 y2 newId conns).all (connectionRolesOk comps)
      = true := by
  obtain ⟨hit1, hf1, hout, he1, he2⟩ := mouseDownConnect_spec h1
  obtain ⟨hm1, hp1⟩ := findPortAtPosition_mem hf1
  unfold handleMouseUpConnect
  cases hfp : findPortAtPosition comps x2 y2 with
  | none => exact h0
  | some hit2 =>
    obtain ⟨hm2, hp2⟩ := findPortAtPosition_mem hfp
    dsimp only
    split
    · next hin =>
      split
      · exact h0
      · rw [List.all_append, Bool.and_eq_true]
        refine ⟨h0, ?_⟩
        simp only [List.all_cons, List.all_nil, Bool.and_true]
        unfold connectionRolesOk
        rw [Bool.and_eq_true]
        refine ⟨?_, ?_⟩
        · rw [List.any_eq_true]
          refine ⟨hit1.component, hm1, ?_⟩
          rw [Bool.and_eq_true]
          refine ⟨?_, ?_⟩
          · rw [beq_iff_eq, he1]
          · rw [List.any_eq_true]
            refine ⟨hit1.port, hp1, ?_⟩
            rw [Bool.and_eq_true]
            refine ⟨?_, ?_⟩
            · rw [beq_iff_eq, he2]
            · rw [beq_iff_eq, hout]
        · rw [List.any_eq_true]
          refine ⟨hit2.component, hm2, ?_⟩
          rw [Bool.and_eq_true]
          refine ⟨?_, ?_⟩
          · rw [beq_iff_eq]
          · rw [List.any_eq_true]
            refine ⟨hit2.port, hp2, ?_⟩
            rw [Bool.and_eq_true]
            refine ⟨?_, ?_⟩
            · rw [beq_iff_eq]
            · rw [beq_iff_eq, hin]
    · exact h0


/-- Witness for claim C4 at a concrete canvas: pressing the mouse at (30, 0)
hits the laser's output port and starts `cn0`; whatever the release does, the
resulting connection list still satisfies the role invariant. -/
theorem mouse_connections_keep_roles_witness :
    (([] : List Connection).all (connectionRolesOk comps0) = true)
    ∧ (handleMouseUpConnect comps0 cn0 80 0 99 []).all (connectionRolesOk comps0)
        = true :=
  ⟨rfl, mouse_connections_keep_roles comps0 [] 30 0 80 0 cn0 99 rfl (by
    unfold mouseDownConnect comps0
    rw [findPortAtPosition]
    norm_num [findPortInPorts, kindPorts, COMPONENT_TYPES, laser1, getPortWorldPosition,
      PORT_RADIUS, Real.sqrt_zero, cn0])⟩

/-- Claim C5: at every single interaction the outgoing intensities sum to at
most the incoming intensity, and each continuation ray's intensity is at most
its parent's, so intensity is non-increasing along a ray's lineage.  The
hypotheses are the validator's ranges (reflectivity and transmissivity in
[0, 1]) together with a Fresnel factor in [0, 1] and a non-negative incoming
intensity.  Modelled from the spec (the backend interaction model is missing
from the checkout). -/
theorem interaction_intensity_bound (c : SComponent) (fres I : ℝ)
    (hr0 : 0 ≤ c.reflectivity) (hr1 : c.reflectivity ≤ 1)
    (ht0 : 0 ≤ c.transmissivity) (ht1 : c.transmissivity ≤ 1)
    (hf0 : 0 ≤ fres) (hf1 : fres ≤ 1) (hI : 0 ≤ I) :
    (((interactFactors c fres).map (fun o => I * o.2)).sum ≤ I)
    ∧ ∀ o ∈ interactFactors c fres, I * o.2 ≤ I := by
  cases hk : c.kind with
  | source =>
    constructor
    · simp [interactFactors, hk, hI]
    · simp [interactFactors, hk]
  | mirror =>
    have hrf : c.reflectivity * fres ≤ 1 := mul_le_one₀ hr1 hf0 hf1
    constructor
    · simp only [interactFactors, hk, List.map_cons, List.map_nil, List.sum_cons,
        List.sum_nil, add_zero]
      exact mul_le_of_le_one_right hI hrf
    · intro o ho
      simp only [interactFactors, hk, List.mem_singleton] at ho
      rw [ho]
      exact mul_le_of_le_one_right hI hrf
  | beamsplitter =>
    simp only [interactFactors, hk]
    unfold clampSplit
    split_ifs with hsum
    · have hpos : (0 : ℝ) < c.reflectivity + c.transmissivity := by linarith
      have hr' : c.reflectivity / (c.reflectivity + c.transmissivity) ≤ 1 := by
        rw [div_le_one hpos]; linarith
      have ht' : c.transmissivity / (c.reflectivity + c.transmissivity) ≤ 1 := by
        rw [div_le_one hpos]; linarith
      constructor
      · simp only [List.map_cons, List.map_nil, List.sum_cons, List.sum_nil, add_zero]
        have hsum1 : I * (c.reflectivity / (c.reflectivity + c.transmissivity))
            + I * (c.transmissivity / (c.reflectivity + c.transmissivity)) = I := by
          field_simp
          ring
        linarith
      · intro o ho
        simp only [List.mem_cons, List.mem_singleton, List.not_mem_nil, or_false] at ho
        rcases ho with ho | ho <;> rw [ho]
        · exact mul_le_of_le_one_right hI hr'
        · exact mul_le_of_le_one_right hI ht'
    · have hle : c.reflectivity + c.transmissivity ≤ 1 := by linarith [not_lt.mp hsum]
      constructor
      · simp only [List.map_cons, List.map_nil, List.sum_cons, List.sum_nil, add_zero]
        calc I * c.reflectivity + I * c.transmissivity
            = I * (c.reflectivity + c.transmissivity) := by ring
          _ ≤ I := mul_le_of_le_one_right hI hle
      · intro o ho
        simp only [List.mem_cons, List.mem_singleton, List.not_mem_nil, or_false] at ho
        rcases ho with ho | ho <;> rw [ho]
        · exact mul_le_of_le_one_right hI hr1
        · exact mul_le_of_le_one_right hI ht1
  | lens =>
    have h98 : lensTransmission ≤ 1 := by norm_num [lensTransmission]
    constructor
    · simp only [interactFactors, hk, List.map_cons, List.map_nil, List.sum_cons,
        List.sum_nil, add_zero]
      exact mul_le_of_le_one_right hI h98
    · intro o ho
      simp only [interactFactors, hk, List.mem_singleton] at ho
      rw [ho]
      exact mul_le_of_le_one_right hI h98
  | detector =>
    constructor
    · simp [interactFactors, hk, hI]
    · simp [interactFactors, hk]

/-- Witness for claim C5: a beam splitter with reflectivity 0.6 and
transmissivity 0.7 (the clamping branch) fed a unit-intensity ray. -/
theorem interaction_intensity_bound_witness :
    ((0 : ℝ) ≤ bsComp.reflectivity ∧ bsComp.reflectivity ≤ 1
      ∧ (0 : ℝ) ≤ bsComp.transmissivity ∧ bsComp.transmissivity ≤ 1
      ∧ (0 : ℝ) ≤ 1 ∧ (1 : ℝ) ≤ 1 ∧ (0 : ℝ) ≤ 1)
    ∧ ((((interactFactors bsComp 1).map (fun o => (1 : ℝ) * o.2)).sum ≤ 1)
       ∧ ∀ o ∈ interactFactors bsComp 1, (1 : ℝ) * o.2 ≤ 1) :=
  ⟨⟨by norm_num [bsComp], by norm_num [bsComp], by norm_num [bsComp],
    by norm_num [bsComp], by norm_num, by norm_num, by norm_num⟩,
   interaction_intensity_bound bsComp 1 1 (by norm_num [bsComp]) (by norm_num [bsComp])
     (by norm_num [bsComp]) (by norm_num [bsComp]) (by norm_num) (by norm_num)
     (by norm_num)⟩

/-- Both outcomes of delivering a ray over one connection keep the bounce count
within the cap and mark emitted rays terminated, provided the incoming ray is
strictly below the cap. -/
theorem stepConn_bound {g : SGraph} {fres : ℝ} {r : SRay} {cn : SConnection}
    (hb : r.bounceCount < maxBounces) :
    (∀ x ∈ (stepConn g fres r cn).1, x.terminated = true ∧ x.bounceCount ≤ maxBounces)
    ∧ ∀ it ∈ (stepConn g fres r cn).2, it.ray.bounceCount ≤ maxBounces := by
  unfold stepConn
  split
  · constructor
    · intro x hx
      simp only [List.mem_singleton] at hx
      rw [hx]
      exact ⟨rfl, le_of_lt hb⟩
    · intro it hit
      simp at hit
  · split_ifs with hdet
    · constructor
      · intro x hx
        simp only [List.mem_singleton] at hx
        rw [hx]
        refine ⟨rfl, ?_⟩
        show r.bounceCount + 1 ≤ maxBounces
        omega
      · intro it hit
        simp at hit
    · constructor
      · intro x hx
        rw [List.mem_map] at hx
        obtain ⟨ch, hch, rfl⟩ := hx
        have hmem := (List.mem_filter.mp hch).1
        rw [List.mem_map] at hmem
        obtain ⟨o, ho, rfl⟩ := hmem
        refine ⟨rfl, ?_⟩
        show r.bounceCount + 1 ≤ maxBounces
        omega
      · intro it hit
        rw [List.mem_map] at hit
        obtain ⟨ch, hch, rfl⟩ := hit
        have hmem := (List.mem_filter.mp hch).1
        rw [List.mem_map] at hmem
        obtain ⟨o, ho, rfl⟩ := hmem
        show r.bounceCount + 1 ≤ maxBounces
        omega

/-- Processing one queue item whose ray is within the cap only emits terminated
rays within the cap and only enqueues items within the cap. -/
theorem stepItem_bound {g : SGraph} {fres : ℝ} {it : QItem}
    (hb : it.ray.bounceCount ≤ maxBounces) :
    (∀ x ∈ (stepItem g fres it).1, x.terminated = true ∧ x.bounceCount ≤ maxBounces)
    ∧ ∀ q ∈ (stepItem g fres it).2, q.ray.bounceCount ≤ maxBounces := by
  unfold stepItem
  split_ifs with hcap
  · constructor
    · intro x hx
      simp only [List.mem_singleton] at hx
      rw [hx]
      exact ⟨rfl, hb⟩
    · intro q hq
      simp at hq
  · have hb' : it.ray.bounceCount < maxBounces := not_le.mp hcap
    dsimp only
    split_ifs with hempty
    · constructor
      · intro x hx
        simp only [List.mem_singleton] at hx
        rw [hx]
        exact ⟨rfl, hb⟩
      · intro q hq
        simp at hq
    · constructor
      · intro x hx
        rw [List.mem_flatten] at hx
        obtain ⟨l, hl, hxl⟩ := hx
        rw [List.mem_map] at hl
        obtain ⟨pr, hpr, rfl⟩ := hl
        rw [List.mem_map] at hpr
        obtain ⟨cn, hcn, rfl⟩ := hpr
        exact (stepConn_bound hb').1 x hxl
      · intro q hq
        rw [List.mem_flatten] at hq
        obtain ⟨l, hl, hql⟩ := hq
        rw [List.mem_map] at hl
        obtain ⟨pr, hpr, rfl⟩ := hl
        rw [List.mem_map] at hpr
        obtain ⟨cn, hcn, rfl⟩ := hpr
        exact (stepConn_bound hb').2 q hql

/-- Every ray the queue loop returns is terminated with bounce count within the
cap, provided every queued item starts within the cap. -/
theorem traceRun_bound {g : SGraph} {fres : ℝ} :
    ∀ (n : ℕ) (items : List QItem),
      (∀ it ∈ items, it.ray.bounceCount ≤ maxBounces) →
      ∀ r ∈ traceRun g fres n items, r.terminated = true ∧ r.bounceCount ≤ maxBounces := by
  intro n
  induction n with
  | zero =>
    intro items h r hr
    rw [traceRun] at hr
    rw [List.mem_map] at hr
    obtain ⟨it, hit, rfl⟩ := hr
    exact ⟨rfl, h it hit⟩
  | succ n ih =>
    intro items h r hr
    rw [traceRun] at hr
    rw [List.mem_append] at hr
    rcases hr with hr | hr
    · rw [List.mem_flatten] at hr
      obtain ⟨l, hl, hrl⟩ := hr
      rw [List.mem_map] at hl
      obtain ⟨pr, hpr, rfl⟩ := hl
      rw [List.mem_map] at hpr
      obtain ⟨it, hit, rfl⟩ := hpr
      exact (stepItem_bound (h it hit)).1 r hrl
    · refine ih _ ?_ r hr
      intro q hq
      rw [List.mem_flatten] at hq
      obtain ⟨l, hl, hql⟩ := hq
      rw [List.mem_map] at hl
      obtain ⟨pr, hpr, rfl⟩ := hl
      rw [List.mem_map] at hpr
      obtain ⟨it, hit, rfl⟩ := hpr
      exact (stepItem_bound (h it hit)).2 q hql

/-- Seed rays depart their source with bounce count zero, within the cap. -/
theorem traceSeeds_bound (g : SGraph) :
    ∀ it ∈ traceSeeds g, it.ray.bounceCount ≤ maxBounces := by
  intro it hit
  unfold traceSeeds at hit
  rw [List.mem_filterMap] at hit
  obtain ⟨c, hc, hsome⟩ := hit
  split at hsome
  · cases hsome
    exact Nat.zero_le _
  · exact absurd hsome (by simp)

/-- Claim C6: for every graph, cyclic connection relations included, every ray
produced by `trace` is terminated and its bounce count is at most the fixed
maximum (50); the queue loop is a total function, so no trace runs forever.
Modelled from the spec (the backend tracer is missing from the checkout). -/
theorem trace_terminates_within_bounce_cap (g : SGraph) (fres : ℝ) :
    (trace g fres).all
      (fun r => r.terminated && decide (r.bounceCount ≤ maxBounces)) = true := by
  rw [List.all_eq_true]
  intro r hr
  unfold trace at hr
  obtain ⟨h1, h2⟩ := traceRun_bound (maxBounces + 1) (traceSeeds g) (traceSeeds_bound g) r hr
  rw [Bool.and_eq_true]
  exact ⟨h1, decide_eq_true h2⟩
